import Mathlib

/-!
# Verification of the KENZZI Toolbox packaging & palletization calculator

Shallow embedding of the computation engine of `packaging_calculator1.py`:
unit conversion, stacking-factor enumeration, dimension composition,
wall-thickness inflation, pallet fitting, and the submit-handler pipeline.

Numeric modelling: the Python script works on floats (dimensions, weights,
thicknesses) and Python ints (counts, pallet tallies).  We model floats by
`ℚ` and ints by `ℤ`.  Python's float floor division `a // b` is `⌊a / b⌋`
and `int(·)` truncates toward zero; both raise `ZeroDivisionError` on a
zero divisor, which we model with `Except String`.
-/

namespace Packaging

/-- Python `int(q)` on a float value: truncation toward zero. -/
def pyInt (q : ℚ) : ℤ := if 0 ≤ q then ⌊q⌋ else ⌈q⌉

/-- Python float floor division `a // b` (the result is a float carrying the
integer `⌊a / b⌋`); only meaningful for `b ≠ 0`. -/
def floordiv (a b : ℚ) : ℚ := ((⌊a / b⌋ : ℤ) : ℚ)

/-! ## Constants (source lines 9–14) -/

def MAX_SIDE_MM : ℚ := 600

def PALLET_LENGTH_MM : ℚ := 1219

def PALLET_WIDTH_MM : ℚ := 1016

def PALLET_HEIGHT_MM : ℚ := 1800

def PALLET_BASE_HEIGHT_MM : ℚ := 148

def USABLE_HEIGHT_MM : ℚ := PALLET_HEIGHT_MM - PALLET_BASE_HEIGHT_MM

/-! ## Unit conversion (source lines 26–41) -/

def mm_to_in (mm : ℚ) : ℚ := mm / 25.4

def in_to_mm (inch : ℚ) : ℚ := inch * 25.4

def kg_to_lb (kg : ℚ) : ℚ := kg * 2.20462

def lb_to_kg (lb : ℚ) : ℚ := lb / 2.20462

/-- The two values of the `unit_system` string in the form. -/
inductive UnitSystem
  | metric
  | imperial
deriving DecidableEq

/-- `convert_inputs` (source lines 35–41): converts imperial inputs to mm/kg,
passes metric inputs through unchanged. -/
def convert_inputs (length width height weight : ℚ) (unit_system : UnitSystem) :
    ℚ × ℚ × ℚ × ℚ :=
  match unit_system with
  | .imperial => (in_to_mm length, in_to_mm width, in_to_mm height, lb_to_kg weight)
  | .metric => (length, width, height, weight)

/-! ## Stacking and pallet fit (source lines 44–52) -/

/-- `calculate_dimensions(config, dims)` (source lines 44–46):
returns `(dims[0]*x, dims[1]*y, dims[2]*z)` for `config = (x, y, z)`. -/
def calculate_dimensions (config : ℤ × ℤ × ℤ) (dims : ℚ × ℚ × ℚ) : ℚ × ℚ × ℚ :=
  (dims.1 * (config.1 : ℚ), dims.2.1 * (config.2.1 : ℚ), dims.2.2 * (config.2.2 : ℚ))

/-- `pallet_fit(outer_L, outer_W, outer_H)` (source lines 49–52):
`per_layer = int(PALLET_LENGTH_MM // outer_L) * int(PALLET_WIDTH_MM // outer_W)`,
`layers = USABLE_HEIGHT_MM / outer_H`, returning
`(per_layer, int(layers), per_layer * int(layers))`.
A zero divisor makes Python raise `ZeroDivisionError` (there is no guard in
the source), modelled by the `Except.error` branch. -/
def pallet_fit (outer_L outer_W outer_H : ℚ) : Except String (ℤ × ℤ × ℤ) :=
  if outer_L = 0 ∨ outer_W = 0 ∨ outer_H = 0 then
    Except.error "ZeroDivisionError"
  else
    let per_layer : ℤ := pyInt (floordiv PALLET_LENGTH_MM outer_L) *
      pyInt (floordiv PALLET_WIDTH_MM outer_W)
    let layers : ℚ := USABLE_HEIGHT_MM / outer_H
    Except.ok (per_layer, pyInt layers, per_layer * pyInt layers)

/-! ## Stacking-factor enumeration (source lines 104–107) -/

/-- Python `range(1, N+1)` for an integer `N`, as the list `[1, …, N]`
(empty when `N < 1`). -/
def pyRange1 (N : ℤ) : List ℤ := (List.range N.toNat).map (fun (i : ℕ) => (i : ℤ) + 1)

/-- `itertools.product(r, repeat=3)`: all triples over `r` in row-major
order (first coordinate outermost, last coordinate fastest). -/
def tripleProduct (r : List ℤ) : List (ℤ × ℤ × ℤ) := r ×ˢ (r ×ˢ r)

/-- The list comprehension shared by `possible_inner_configs` and
`possible_outer_configs` (source lines 104–107):
`[cfg for cfg in product(range(1, N+1), repeat=3) if cfg[0]*cfg[1]*cfg[2] == N]`. -/
def possible_configs (N : ℤ) : List (ℤ × ℤ × ℤ) :=
  (tripleProduct (pyRange1 N)).filter (fun cfg => cfg.1 * cfg.2.1 * cfg.2.2 == N)

/-! ## The submit handler pipeline (source lines 125–137) -/

/-- The inputs the form hands to the submit handler. -/
structure SubmitInput where
  unit_system : UnitSystem
  length : ℚ
  width : ℚ
  height : ℚ
  weight : ℚ
  units_per_inner : ℤ
  inners_per_outer : ℤ
  inner_config : ℤ × ℤ × ℤ
  outer_config : ℤ × ℤ × ℤ
  inner_thickness : ℚ
  outer_thickness : ℚ
deriving DecidableEq

/-- The values the handler computes and displays on success. -/
structure SubmitResult where
  inner_dims : ℚ × ℚ × ℚ
  inner_weight : ℚ
  outer_dims : ℚ × ℚ × ℚ
  outer_weight : ℚ
  cartons_per_layer : ℤ
  layers : ℤ
  total_cartons : ℤ
  total_units : ℤ
deriving DecidableEq

/-- Source line 127: the converted `(length, width, height, weight)`. -/
def converted (inp : SubmitInput) : ℚ × ℚ × ℚ × ℚ :=
  convert_inputs inp.length inp.width inp.height inp.weight inp.unit_system

/-- Source line 128: `inner_L, inner_W, inner_H = calculate_dimensions(inner_config, (length, width, height))`. -/
def inner_raw (inp : SubmitInput) : ℚ × ℚ × ℚ :=
  calculate_dimensions inp.inner_config
    ((converted inp).1, (converted inp).2.1, (converted inp).2.2.1)

/-- Source line 129: each inner axis plus `2*inner_thickness`. -/
def inner_dims (inp : SubmitInput) : ℚ × ℚ × ℚ :=
  ((inner_raw inp).1 + 2 * inp.inner_thickness,
   (inner_raw inp).2.1 + 2 * inp.inner_thickness,
   (inner_raw inp).2.2 + 2 * inp.inner_thickness)

/-- Source line 130: `outer_L, outer_W, outer_H = calculate_dimensions(outer_config, inner_dims)`. -/
def outer_raw (inp : SubmitInput) : ℚ × ℚ × ℚ :=
  calculate_dimensions inp.outer_config (inner_dims inp)

/-- Source line 131: each outer axis plus `2*outer_thickness`. -/
def outer_dims (inp : SubmitInput) : ℚ × ℚ × ℚ :=
  ((outer_raw inp).1 + 2 * inp.outer_thickness,
   (outer_raw inp).2.1 + 2 * inp.outer_thickness,
   (outer_raw inp).2.2 + 2 * inp.outer_thickness)

/-- Source line 133: `inner_weight = weight * units_per_inner`. -/
def inner_weight (inp : SubmitInput) : ℚ :=
  (converted inp).2.2.2 * (inp.units_per_inner : ℚ)

/-- Source line 134: `outer_weight = inner_weight * inners_per_outer`. -/
def outer_weight (inp : SubmitInput) : ℚ :=
  inner_weight inp * (inp.inners_per_outer : ℚ)

/-- The submit handler (source lines 125–137): computes dimensions and
weights, calls `pallet_fit` on the outer dimensions, and on success bundles
the displayed values, with
`total_units_per_pallet = total_cartons * units_per_inner * inners_per_outer`.
An exception from `pallet_fit` aborts the whole computation. -/
def submit (inp : SubmitInput) : Except String SubmitResult :=
  match pallet_fit (outer_dims inp).1 (outer_dims inp).2.1 (outer_dims inp).2.2 with
  | Except.error e => Except.error e
  | Except.ok t =>
      Except.ok ⟨inner_dims inp, inner_weight inp, outer_dims inp, outer_weight inp,
        t.1, t.2.1, t.2.2, t.2.2 * inp.units_per_inner * inp.inners_per_outer⟩

/-- The wall-thickness inflation operation that lines 129 and 131 apply
inline: every axis grows by `2 * thickness` (named `inflate` in the design). -/
def inflate (dims : ℚ × ℚ × ℚ) (t : ℚ) : ℚ × ℚ × ℚ :=
  (dims.1 + 2 * t, dims.2.1 + 2 * t, dims.2.2 + 2 * t)

/-- The concrete scenario input of the spec: metric, unit 100×80×50 mm at
0.5 kg, 4 units per inner stacked (2,2,1), 2 inners per outer stacked
(2,1,1), thicknesses 3 mm and 4 mm. -/
def exampleInput : SubmitInput :=
  ⟨.metric, 100, 80, 50, 0.5, 4, 2, (2, 2, 1), (2, 1, 1), 3, 4⟩

/-- The output the handler computes on `exampleInput`. -/
def exampleResult : SubmitResult :=
  ⟨(206, 166, 56), 2, (420, 174, 64), 4, 10, 25, 250, 2000⟩

/-- An input whose inner stacking factor (1,1,3) does not multiply to
`units_per_inner = 4` (the invalid-factor scenario of the spec). -/
def badFactorInput : SubmitInput :=
  ⟨.metric, 100, 80, 50, 0.5, 4, 2, (1, 1, 3), (2, 1, 1), 3, 4⟩

/-- The output the handler nevertheless computes on `badFactorInput`. -/
def badFactorResult : SubmitResult :=
  ⟨(106, 86, 156), 2, (220, 94, 164), 4, 50, 10, 500, 4000⟩

/-! ## Elementary facts about the Python primitives -/

lemma pyInt_intCast (n : ℤ) : pyInt ((n : ℤ) : ℚ) = n := by
  unfold pyInt
  split
  · exact Int.floor_intCast n
  · exact Int.ceil_intCast n

lemma pyInt_of_nonneg {q : ℚ} (h : 0 ≤ q) : pyInt q = ⌊q⌋ := if_pos h

lemma usable_height_eq : USABLE_HEIGHT_MM = 1652 := by
  norm_num [USABLE_HEIGHT_MM, PALLET_HEIGHT_MM, PALLET_BASE_HEIGHT_MM]

/-- On strictly positive inputs `pallet_fit` succeeds and returns exactly
the floor-division formula of the spec (truncation agrees with floor on
the nonnegative quotients). -/
lemma pallet_fit_pos (L W H : ℚ) (hL : 0 < L) (hW : 0 < W) (hH : 0 < H) :
    pallet_fit L W H = Except.ok
      (⌊PALLET_LENGTH_MM / L⌋ * ⌊PALLET_WIDTH_MM / W⌋, ⌊USABLE_HEIGHT_MM / H⌋,
       ⌊PALLET_LENGTH_MM / L⌋ * ⌊PALLET_WIDTH_MM / W⌋ * ⌊USABLE_HEIGHT_MM / H⌋) := by
  have hcond : ¬(L = 0 ∨ W = 0 ∨ H = 0) := by
    push_neg
    exact ⟨hL.ne', hW.ne', hH.ne'⟩
  have hq : (0 : ℚ) ≤ USABLE_HEIGHT_MM / H := by
    apply div_nonneg _ hH.le
    rw [usable_height_eq]
    norm_num
  rw [pallet_fit, if_neg hcond]
  simp only [floordiv, pyInt_intCast, pyInt_of_nonneg hq]

/-- The only exception `pallet_fit` can produce is the division-by-zero one. -/
lemma pallet_fit_error_eq {L W H : ℚ} {e : String}
    (h : pallet_fit L W H = Except.error e) : e = "ZeroDivisionError" := by
  rw [pallet_fit] at h
  split at h
  · exact (Except.error.inj h).symm
  · simp at h

/-! ## Facts about the factor enumeration -/

lemma mem_pyRange1 {N x : ℤ} : x ∈ pyRange1 N ↔ 1 ≤ x ∧ x ≤ N := by
  unfold pyRange1
  simp only [List.mem_map, List.mem_range]
  constructor
  · rintro ⟨i, hi, hx⟩
    omega
  · rintro ⟨h1, h2⟩
    refine ⟨(x - 1).toNat, ?_, ?_⟩ <;> omega

lemma nodup_pyRange1 (N : ℤ) : (pyRange1 N).Nodup := by
  apply List.Nodup.map
  · intro a b h
    simp only at h
    omega
  · exact List.nodup_range N.toNat

lemma nodup_possible_configs (N : ℤ) : (possible_configs N).Nodup := by
  apply List.Nodup.filter
  exact List.Nodup.product (nodup_pyRange1 N)
    (List.Nodup.product (nodup_pyRange1 N) (nodup_pyRange1 N))

lemma mem_possible_configs {N x y z : ℤ} :
    (x, y, z) ∈ possible_configs N ↔
      ((1 ≤ x ∧ x ≤ N) ∧ (1 ≤ y ∧ y ≤ N) ∧ (1 ≤ z ∧ z ≤ N)) ∧ x * y * z = N := by
  unfold possible_configs tripleProduct
  rw [List.mem_filter]
  simp only [List.mem_product, mem_pyRange1, beq_iff_eq]

lemma le_mul_triple {a b c : ℤ} (ha : 1 ≤ a) (hb : 1 ≤ b) (hc : 1 ≤ c) :
    a ≤ a * b * c := by
  have hbc : (1 : ℤ) ≤ b * c := by nlinarith
  calc a = a * 1 := (mul_one a).symm
    _ ≤ a * (b * c) := mul_le_mul_of_nonneg_left hbc (by linarith)
    _ = a * b * c := (mul_assoc a b c).symm

/-- Each factor of a positive triple product is bounded by the product. -/
lemma triple_factor_le {x y z N : ℤ} (hx : 1 ≤ x) (hy : 1 ≤ y) (hz : 1 ≤ z)
    (hp : x * y * z = N) : x ≤ N ∧ y ≤ N ∧ z ≤ N := by
  refine ⟨?_, ?_, ?_⟩
  · calc x ≤ x * y * z := le_mul_triple hx hy hz
      _ = N := hp
  · calc y ≤ y * x * z := le_mul_triple hy hx hz
      _ = x * y * z := by ring
      _ = N := hp
  · calc z ≤ z * x * y := le_mul_triple hz hx hy
      _ = x * y * z := by ring
      _ = N := hp

/-! ## Inversion of the submit handler -/

lemma submit_ok_parts {inp : SubmitInput} {r : SubmitResult}
    (h : submit inp = Except.ok r) :
    r.inner_dims = inner_dims inp ∧ r.inner_weight = inner_weight inp ∧
    r.outer_dims = outer_dims inp ∧ r.outer_weight = outer_weight inp := by
  rw [submit] at h
  rcases hp : pallet_fit (outer_dims inp).1 (outer_dims inp).2.1 (outer_dims inp).2.2
    with e | t
  · rw [hp] at h
    cases h
  · rw [hp] at h
    have hr := Except.ok.inj h
    rw [← hr]
    exact ⟨rfl, rfl, rfl, rfl⟩

lemma inner_dims_eq_inflate (inp : SubmitInput) :
    inner_dims inp = inflate (inner_raw inp) inp.inner_thickness := rfl

lemma outer_dims_eq_inflate (inp : SubmitInput) :
    outer_dims inp = inflate (outer_raw inp) inp.outer_thickness := rfl

/-! ## Concrete evaluations -/

lemma floor_div_eval {a b : ℚ} {n : ℤ} (hb : 0 < b) (h1 : (n : ℚ) * b ≤ a)
    (h2 : a < ((n : ℚ) + 1) * b) : ⌊a / b⌋ = n := by
  rw [Int.floor_eq_iff]
  constructor
  · rw [le_div_iff₀ hb]
    exact h1
  · rw [div_lt_iff₀ hb]
    exact h2

lemma pallet_fit_eval_420 : pallet_fit 420 174 64 = Except.ok (10, 25, 250) := by
  have h1 : ⌊PALLET_LENGTH_MM / (420 : ℚ)⌋ = 2 := by
    simp only [PALLET_LENGTH_MM]
    exact floor_div_eval (by norm_num) (by norm_num) (by norm_num)
  have h2 : ⌊PALLET_WIDTH_MM / (174 : ℚ)⌋ = 5 := by
    simp only [PALLET_WIDTH_MM]
    exact floor_div_eval (by norm_num) (by norm_num) (by norm_num)
  have h3 : ⌊USABLE_HEIGHT_MM / (64 : ℚ)⌋ = 25 := by
    rw [usable_height_eq]
    exact floor_div_eval (by norm_num) (by norm_num) (by norm_num)
  rw [pallet_fit_pos 420 174 64 (by norm_num) (by norm_num) (by norm_num), h1, h2, h3]
  norm_num

lemma pallet_fit_eval_220 : pallet_fit 220 94 164 = Except.ok (50, 10, 500) := by
  have h1 : ⌊PALLET_LENGTH_MM / (220 : ℚ)⌋ = 5 := by
    simp only [PALLET_LENGTH_MM]
    exact floor_div_eval (by norm_num) (by norm_num) (by norm_num)
  have h2 : ⌊PALLET_WIDTH_MM / (94 : ℚ)⌋ = 10 := by
    simp only [PALLET_WIDTH_MM]
    exact floor_div_eval (by norm_num) (by norm_num) (by norm_num)
  have h3 : ⌊USABLE_HEIGHT_MM / (164 : ℚ)⌋ = 10 := by
    rw [usable_height_eq]
    exact floor_div_eval (by norm_num) (by norm_num) (by norm_num)
  rw [pallet_fit_pos 220 94 164 (by norm_num) (by norm_num) (by norm_num), h1, h2, h3]
  norm_num

lemma converted_example : converted exampleInput = (100, 80, 50, 0.5) := rfl

lemma inner_raw_example : inner_raw exampleInput = (200, 160, 50) := by
  rw [inner_raw, converted_example]
  norm_num [calculate_dimensions, exampleInput]

lemma inner_dims_example : inner_dims exampleInput = (206, 166, 56) := by
  rw [inner_dims, inner_raw_example]
  norm_num [exampleInput]

lemma outer_raw_example : outer_raw exampleInput = (412, 166, 56) := by
  rw [outer_raw, inner_dims_example]
  norm_num [calculate_dimensions, exampleInput]

lemma outer_dims_example : outer_dims exampleInput = (420, 174, 64) := by
  rw [outer_dims, outer_raw_example]
  norm_num [exampleInput]

lemma inner_weight_example : inner_weight exampleInput = 2 := by
  rw [inner_weight, converted_example]
  norm_num [exampleInput]

lemma outer_weight_example : outer_weight exampleInput = 4 := by
  rw [outer_weight, inner_weight_example]
  norm_num [exampleInput]

lemma submit_example : submit exampleInput = Except.ok exampleResult := by
  rw [submit, outer_dims_example]
  dsimp only
  rw [pallet_fit_eval_420]
  rw [inner_dims_example, inner_weight_example, outer_weight_example]
  norm_num [exampleResult, exampleInput]

lemma converted_bad : converted badFactorInput = (100, 80, 50, 0.5) := rfl

lemma inner_raw_bad : inner_raw badFactorInput = (100, 80, 150) := by
  rw [inner_raw, converted_bad]
  norm_num [calculate_dimensions, badFactorInput]

lemma inner_dims_bad : inner_dims badFactorInput = (106, 86, 156) := by
  rw [inner_dims, inner_raw_bad]
  norm_num [badFactorInput]

lemma outer_raw_bad : outer_raw badFactorInput = (212, 86, 156) := by
  rw [outer_raw, inner_dims_bad]
  norm_num [calculate_dimensions, badFactorInput]

lemma outer_dims_bad : outer_dims badFactorInput = (220, 94, 164) := by
  rw [outer_dims, outer_raw_bad]
  norm_num [badFactorInput]

lemma inner_weight_bad : inner_weight badFactorInput = 2 := by
  rw [inner_weight, converted_bad]
  norm_num [badFactorInput]

lemma outer_weight_bad : outer_weight badFactorInput = 4 := by
  rw [outer_weight, inner_weight_bad]
  norm_num [badFactorInput]

lemma submit_bad : submit badFactorInput = Except.ok badFactorResult := by
  rw [submit, outer_dims_bad]
  dsimp only
  rw [pallet_fit_eval_220]
  rw [inner_dims_bad, inner_weight_bad, outer_weight_bad]
  norm_num [badFactorResult, badFactorInput]

/-! ## Claims -/

/-- C1: contrary to the spec's zero-guard policy, whenever an outer box has a
zero length, width or height, `pallet_fit` raises `ZeroDivisionError`
(unhandled, since the handler catches only `ValueError`) instead of
returning an all-zero result: the code has no guard. -/
theorem pallet_fit_zero_axis_raises (L W H : ℚ) (h : L = 0 ∨ W = 0 ∨ H = 0) :
    pallet_fit L W H = Except.error "ZeroDivisionError" := by
  rw [pallet_fit, if_pos h]

/-- Witness: `pallet_fit 0 174 64` raises rather than fitting zero cartons. -/
theorem pallet_fit_zero_axis_raises_witness :
    pallet_fit 0 174 64 = Except.error "ZeroDivisionError" :=
  pallet_fit_zero_axis_raises 0 174 64 (Or.inl rfl)

/-- C2: the concrete scenario — unit 100×80×50 mm at 0.5 kg, 4 units per
inner stacked (2,2,1), 2 inners per outer stacked (2,1,1), thicknesses
3 mm / 4 mm — yields inner_raw (200,160,50), inner_dims (206,166,56),
inner_weight 2 kg, outer_raw (412,166,56), outer_dims (420,174,64),
outer_weight 4 kg, and pallet fit 10 cartons/layer, 25 layers,
250 cartons, 2000 units. -/
theorem concrete_scenario_eval :
    inner_raw exampleInput = (200, 160, 50) ∧
    outer_raw exampleInput = (412, 166, 56) ∧
    submit exampleInput = Except.ok
      ⟨(206, 166, 56), 2, (420, 174, 64), 4, 10, 25, 250, 2000⟩ :=
  ⟨inner_raw_example, outer_raw_example, submit_example⟩

/-- C3: on strictly positive outer dimensions `pallet_fit` returns exactly
`⌊1219/L⌋ * ⌊1016/W⌋` cartons per layer, `⌊(1800-148)/H⌋ = ⌊1652/H⌋`
layers and their product as total cartons, and an oversize axis makes the
corresponding floor division 0 with no special case. -/
theorem pallet_fit_formula (L W H : ℚ) (hL : 0 < L) (hW : 0 < W) (hH : 0 < H) :
    pallet_fit L W H = Except.ok
      (⌊PALLET_LENGTH_MM / L⌋ * ⌊PALLET_WIDTH_MM / W⌋, ⌊USABLE_HEIGHT_MM / H⌋,
       ⌊PALLET_LENGTH_MM / L⌋ * ⌊PALLET_WIDTH_MM / W⌋ * ⌊USABLE_HEIGHT_MM / H⌋) ∧
    USABLE_HEIGHT_MM = 1652 ∧
    (PALLET_LENGTH_MM < L → ⌊PALLET_LENGTH_MM / L⌋ = 0) ∧
    (PALLET_WIDTH_MM < W → ⌊PALLET_WIDTH_MM / W⌋ = 0) ∧
    (USABLE_HEIGHT_MM < H → ⌊USABLE_HEIGHT_MM / H⌋ = 0) := by
  refine ⟨pallet_fit_pos L W H hL hW hH, usable_height_eq, fun hgt => ?_, fun hgt => ?_,
    fun hgt => ?_⟩
  · exact Int.floor_eq_zero_iff.mpr (Set.mem_Ico.mpr
      ⟨div_nonneg (by norm_num [PALLET_LENGTH_MM]) hL.le, (div_lt_one hL).mpr hgt⟩)
  · exact Int.floor_eq_zero_iff.mpr (Set.mem_Ico.mpr
      ⟨div_nonneg (by norm_num [PALLET_WIDTH_MM]) hW.le, (div_lt_one hW).mpr hgt⟩)
  · exact Int.floor_eq_zero_iff.mpr (Set.mem_Ico.mpr
      ⟨div_nonneg (by rw [usable_height_eq]; norm_num) hH.le, (div_lt_one hH).mpr hgt⟩)

/-- Witness: the formula instantiated at the outer box (420, 174, 64). -/
theorem pallet_fit_formula_witness :
    pallet_fit 420 174 64 = Except.ok
      (⌊PALLET_LENGTH_MM / 420⌋ * ⌊PALLET_WIDTH_MM / 174⌋, ⌊USABLE_HEIGHT_MM / 64⌋,
       ⌊PALLET_LENGTH_MM / 420⌋ * ⌊PALLET_WIDTH_MM / 174⌋ * ⌊USABLE_HEIGHT_MM / 64⌋) :=
  (pallet_fit_formula 420 174 64 (by norm_num) (by norm_num) (by norm_num)).1

/-- C4: for every positive `N` the enumeration contains exactly the ordered
triples of positive integers with product `N`, without duplicates, and
`N = 1` yields exactly `[(1,1,1)]`. -/
theorem factor_enumeration_exact :
    (∀ N : ℤ, 1 ≤ N →
      (∀ x y z : ℤ,
        ((x, y, z) ∈ possible_configs N ↔ 1 ≤ x ∧ 1 ≤ y ∧ 1 ≤ z ∧ x * y * z = N)) ∧
      (possible_configs N).Nodup) ∧
    possible_configs 1 = [(1, 1, 1)] := by
  refine ⟨fun N hN => ⟨fun x y z => ?_, nodup_possible_configs N⟩, by decide⟩
  rw [mem_possible_configs]
  constructor
  · rintro ⟨⟨⟨hx, _⟩, ⟨hy, _⟩, ⟨hz, _⟩⟩, hp⟩
    exact ⟨hx, hy, hz, hp⟩
  · rintro ⟨hx, hy, hz, hp⟩
    obtain ⟨bx, hby, bz⟩ := triple_factor_le hx hy hz hp
    exact ⟨⟨⟨hx, bx⟩, ⟨hy, hby⟩, ⟨hz, bz⟩⟩, hp⟩

/-- Witness: (2,2,1) is enumerated for N = 4, and the enumeration for 4 is
duplicate-free. -/
theorem factor_enumeration_exact_witness :
    (2, 2, 1) ∈ possible_configs 4 ∧ (possible_configs 4).Nodup :=
  ⟨((factor_enumeration_exact.1 4 (by decide)).1 2 2 1).mpr (by decide),
   (factor_enumeration_exact.1 4 (by decide)).2⟩

/-- C5 counterexample: at `N = 0` the enumeration returns the empty list —
a sequence, not an `InvalidCountError` (no such error exists in the code). -/
theorem enumeration_zero_returns_list : possible_configs 0 = [] := rfl

/-- C5 amended: for every `N < 1` the enumeration silently returns the
empty list instead of failing. -/
theorem enumeration_underflow_nil (N : ℤ) (h : N < 1) : possible_configs N = [] := by
  have ht : N.toNat = 0 := by omega
  simp [possible_configs, tripleProduct, pyRange1, ht]

/-- Witness: the amended claim at `N = -3`. -/
theorem enumeration_underflow_nil_witness : possible_configs (-3) = [] :=
  enumeration_underflow_nil (-3) (by decide)

/-- C6 counterexample: with `units_per_inner = 4` but inner factor (1,1,3)
(product 3 ≠ 4) the handler happily computes a full result — no
`InvalidConfigurationError` is raised. -/
theorem submit_invalid_factor_still_computes :
    submit badFactorInput =
      Except.ok ⟨(106, 86, 156), 2, (220, 94, 164), 4, 50, 10, 500, 4000⟩ :=
  submit_bad

/-- C6 amended: the handler performs no validation at all — for every input
it either returns a full result or propagates only the `ZeroDivisionError`
from `pallet_fit`; no configuration error exists. -/
theorem submit_no_validation (inp : SubmitInput) :
    (∃ r, submit inp = Except.ok r) ∨ submit inp = Except.error "ZeroDivisionError" := by
  rcases hp : pallet_fit (outer_dims inp).1 (outer_dims inp).2.1 (outer_dims inp).2.2
    with e | t
  · right
    rw [submit, hp, pallet_fit_error_eq hp]
  · left
    exact ⟨_, by rw [submit, hp]⟩

/-- C7: compose-then-inflate differs from inflate-then-compose (witnessed by
factor (2,1,1), box (10,10,10), thickness 1), and the pipeline applies
compose before inflate at both packaging levels. -/
theorem compose_inflate_order :
    (∃ (f : ℤ × ℤ × ℤ) (d : ℚ × ℚ × ℚ) (t : ℚ), 0 < t ∧
      inflate (calculate_dimensions f d) t ≠ calculate_dimensions f (inflate d t)) ∧
    ∀ (inp : SubmitInput) (r : SubmitResult), submit inp = Except.ok r →
      r.inner_dims = inflate (calculate_dimensions inp.inner_config
        ((converted inp).1, (converted inp).2.1, (converted inp).2.2.1))
        inp.inner_thickness ∧
      r.outer_dims = inflate (calculate_dimensions inp.outer_config r.inner_dims)
        inp.outer_thickness := by
  constructor
  · refine ⟨(2, 1, 1), (10, 10, 10), 1, one_pos, ?_⟩
    simp only [inflate, calculate_dimensions, Prod.mk.injEq]
    norm_num
  · intro inp r h
    obtain ⟨hid, _, hod, _⟩ := submit_ok_parts h
    constructor
    · rw [hid]
      rfl
    · rw [hod, hid]
      rfl

/-- Witness: the pipeline order at the concrete scenario input. -/
theorem compose_inflate_order_witness :
    exampleResult.inner_dims = inflate (calculate_dimensions (2, 2, 1)
      ((converted exampleInput).1, (converted exampleInput).2.1,
       (converted exampleInput).2.2.1)) 3 ∧
    exampleResult.outer_dims =
      inflate (calculate_dimensions (2, 1, 1) exampleResult.inner_dims) 4 :=
  compose_inflate_order.2 exampleInput exampleResult submit_example

/-- C8: the pipeline's weights are purely multiplicative:
inner = unit weight × units_per_inner, outer = inner × inners_per_outer,
with no additive material term. -/
theorem weights_multiplicative :
    ∀ (inp : SubmitInput) (r : SubmitResult), submit inp = Except.ok r →
      r.inner_weight = (converted inp).2.2.2 * (inp.units_per_inner : ℚ) ∧
      r.outer_weight = r.inner_weight * (inp.inners_per_outer : ℚ) ∧
      r.outer_weight = (converted inp).2.2.2 * (inp.units_per_inner : ℚ) *
        (inp.inners_per_outer : ℚ) := by
  intro inp r h
  obtain ⟨_, hiw, _, how⟩ := submit_ok_parts h
  refine ⟨by rw [hiw]; rfl, by rw [how, hiw]; rfl, by rw [how]; rfl⟩

/-- Witness: the weight formulas at the concrete scenario input. -/
theorem weights_multiplicative_witness :
    exampleResult.inner_weight = (converted exampleInput).2.2.2 * ((4 : ℤ) : ℚ) ∧
    exampleResult.outer_weight = exampleResult.inner_weight * ((2 : ℤ) : ℚ) ∧
    exampleResult.outer_weight = (converted exampleInput).2.2.2 * ((4 : ℤ) : ℚ) *
      ((2 : ℤ) : ℚ) :=
  weights_multiplicative exampleInput exampleResult submit_example

/-- C9: `calculate_dimensions` is a per-axis multiplicative action:
composing two factors equals acting by their componentwise product, and
the factor (1,1,1) acts as identity. -/
theorem calculate_dimensions_hom :
    (∀ (f g : ℤ × ℤ × ℤ) (d : ℚ × ℚ × ℚ),
      calculate_dimensions f (calculate_dimensions g d) =
        calculate_dimensions (f.1 * g.1, f.2.1 * g.2.1, f.2.2 * g.2.2) d) ∧
    ∀ d : ℚ × ℚ × ℚ, calculate_dimensions (1, 1, 1) d = d := by
  constructor
  · intro f g d
    simp only [calculate_dimensions, Prod.mk.injEq]
    refine ⟨?_, ?_, ?_⟩ <;> push_cast <;> ring
  · intro d
    simp [calculate_dimensions]

/-- C10: on positive inputs `pallet_fit` is antitone in every axis: a larger
outer case never fits more cartons per layer, layers, or total cartons. -/
theorem pallet_fit_antitone (L W H Lp Wp Hp : ℚ) (hL : 0 < L) (hW : 0 < W) (hH : 0 < H)
    (hLp : L ≤ Lp) (hWp : W ≤ Wp) (hHp : H ≤ Hp) :
    ∃ p q : ℤ × ℤ × ℤ, pallet_fit L W H = Except.ok p ∧
      pallet_fit Lp Wp Hp = Except.ok q ∧
      q.1 ≤ p.1 ∧ q.2.1 ≤ p.2.1 ∧ q.2.2 ≤ p.2.2 := by
  have hL2 : 0 < Lp := lt_of_lt_of_le hL hLp
  have hW2 : 0 < Wp := lt_of_lt_of_le hW hWp
  have hH2 : 0 < Hp := lt_of_lt_of_le hH hHp
  have hPL : (0 : ℚ) ≤ PALLET_LENGTH_MM := by norm_num [PALLET_LENGTH_MM]
  have hPW : (0 : ℚ) ≤ PALLET_WIDTH_MM := by norm_num [PALLET_WIDTH_MM]
  have hUH : (0 : ℚ) ≤ USABLE_HEIGHT_MM := by rw [usable_height_eq]; norm_num
  have fL : ⌊PALLET_LENGTH_MM / Lp⌋ ≤ ⌊PALLET_LENGTH_MM / L⌋ :=
    Int.floor_mono (div_le_div_of_nonneg_left hPL hL hLp)
  have fW : ⌊PALLET_WIDTH_MM / Wp⌋ ≤ ⌊PALLET_WIDTH_MM / W⌋ :=
    Int.floor_mono (div_le_div_of_nonneg_left hPW hW hWp)
  have fH : ⌊USABLE_HEIGHT_MM / Hp⌋ ≤ ⌊USABLE_HEIGHT_MM / H⌋ :=
    Int.floor_mono (div_le_div_of_nonneg_left hUH hH hHp)
  have nL : (0 : ℤ) ≤ ⌊PALLET_LENGTH_MM / L⌋ :=
    Int.floor_nonneg.mpr (div_nonneg hPL hL.le)
  have nW2 : (0 : ℤ) ≤ ⌊PALLET_WIDTH_MM / Wp⌋ :=
    Int.floor_nonneg.mpr (div_nonneg hPW hW2.le)
  have nH2 : (0 : ℤ) ≤ ⌊USABLE_HEIGHT_MM / Hp⌋ :=
    Int.floor_nonneg.mpr (div_nonneg hUH hH2.le)
  have hper : ⌊PALLET_LENGTH_MM / Lp⌋ * ⌊PALLET_WIDTH_MM / Wp⌋ ≤
      ⌊PALLET_LENGTH_MM / L⌋ * ⌊PALLET_WIDTH_MM / W⌋ :=
    mul_le_mul fL fW nW2 nL
  have nper : (0 : ℤ) ≤ ⌊PALLET_LENGTH_MM / L⌋ * ⌊PALLET_WIDTH_MM / W⌋ :=
    mul_nonneg nL (Int.floor_nonneg.mpr (div_nonneg hPW hW.le))
  refine ⟨_, _, pallet_fit_pos L W H hL hW hH, pallet_fit_pos Lp Wp Hp hL2 hW2 hH2,
    hper, fH, mul_le_mul hper fH nH2 nper⟩

/-- Witness: antitonicity from outer box (420,174,64) to (500,200,100). -/
theorem pallet_fit_antitone_witness :
    ∃ p q : ℤ × ℤ × ℤ, pallet_fit 420 174 64 = Except.ok p ∧
      pallet_fit 500 200 100 = Except.ok q ∧
      q.1 ≤ p.1 ∧ q.2.1 ≤ p.2.1 ∧ q.2.2 ≤ p.2.2 :=
  pallet_fit_antitone 420 174 64 500 200 100 (by norm_num) (by norm_num) (by norm_num)
    (by norm_num) (by norm_num) (by norm_num)

end Packaging

